import Mathlib

/-!
Verification of the Rakshak-AI risk-classification core against its
natural-language specification.

Shallow embedding of `server/app` (Python) into Lean:
* floats are modelled as rationals (`ℚ`), timestamps as rational seconds;
* the configuration object (`config.py`) is a structure, with
  `defaultConfig` holding the values of `config.py`;
* the classification engine (`services/intent_service.py`), the alert
  lifecycle manager (`services/alert_service.py`) and the run controller
  (`simulation_controller.py`) are explicit state-passing functions;
* display-only string fields (titles, descriptions, emoji notes) and
  logging are omitted: no theorem below concerns them;
* `datetime.utcnow()` is modelled by an explicit `now : ℚ` argument, and
  `uuid` identifiers by a caller-supplied fresh string.
-/

namespace Rakshak

/-! ## Enumerations (models/vision.py, models/alert.py, config.py) -/

/-- `DetectionClass` of models/vision.py. -/
inductive DetectionClass
  | missing_fish_plate
  | foreign_object
  | track_displacement
  | human_presence
  | tool_detection
  | vehicle_near_track
  | normal
deriving DecidableEq, Repr

/-- `TamperingClassification` of config.py / models/intent.py. -/
inductive TamperingClassification
  | SAFE
  | SUSPICIOUS
  | CONFIRMED_TAMPERING
deriving DecidableEq, Repr

/-- `SeverityLevel` of models/alert.py. -/
inductive SeverityLevel
  | LOW
  | MEDIUM
  | HIGH
  | CRITICAL
deriving DecidableEq, Repr

/-- `AlertStatus` of models/alert.py. -/
inductive AlertStatus
  | ACTIVE
  | ACKNOWLEDGED
  | INVESTIGATING
  | RESOLVED
  | ESCALATED
  | FALSE_POSITIVE
deriving DecidableEq, Repr

/-- `EscalationLevel` of models/alert.py (`int` enum, values 1–4). -/
inductive EscalationLevel
  | INITIAL
  | SUPERVISOR
  | MANAGER
  | EMERGENCY
deriving DecidableEq, Repr

/-- The integer value of an escalation level (`EscalationLevel.value`). -/
def EscalationLevel.val : EscalationLevel → ℕ
  | .INITIAL => 1
  | .SUPERVISOR => 2
  | .MANAGER => 3
  | .EMERGENCY => 4

/-- `EscalationLevel(value + 1)`; only ever applied below EMERGENCY in the
source (guarded), so the EMERGENCY case is unreachable there. -/
def EscalationLevel.next : EscalationLevel → EscalationLevel
  | .INITIAL => .SUPERVISOR
  | .SUPERVISOR => .MANAGER
  | .MANAGER => .EMERGENCY
  | .EMERGENCY => .EMERGENCY

/-! ## Configuration (config.py) -/

/-- The configuration surface read by the embedded components
(`Config` of config.py, restricted to the fields the claims touch). -/
structure Config where
  RISK_THRESHOLD_SAFE : ℚ
  RISK_THRESHOLD_SUSPICIOUS : ℚ
  SEVERITY_THRESHOLDS : List (SeverityLevel × ℚ × ℚ)
  TIME_WEIGHT_night_hours : ℚ
  TIME_WEIGHT_early_morning : ℚ
  TIME_WEIGHT_peak_hours : ℚ
  ALERT_COOLDOWN_SECONDS : ℚ
  MAX_ALERTS_PER_HOUR : ℕ
  ESCALATION_TIMEOUT : SeverityLevel → ℚ

/-- The values of config.py. -/
def defaultConfig : Config where
  RISK_THRESHOLD_SAFE := 25
  RISK_THRESHOLD_SUSPICIOUS := 60
  SEVERITY_THRESHOLDS :=
    [(.LOW, 25, 49), (.MEDIUM, 50, 69), (.HIGH, 70, 84), (.CRITICAL, 85, 100)]
  TIME_WEIGHT_night_hours := 13/10
  TIME_WEIGHT_early_morning := 12/10
  TIME_WEIGHT_peak_hours := 9/10
  ALERT_COOLDOWN_SECONDS := 300
  MAX_ALERTS_PER_HOUR := 10
  ESCALATION_TIMEOUT := fun s => match s with
    | .LOW => 1800
    | .MEDIUM => 900
    | .HIGH => 300
    | .CRITICAL => 60

/-! ## Numeric guard layer (utils/safe_math.py) -/

/-- Reason codes of `MathFallbackReason` (utils/safe_math.py). -/
inductive MathFallbackReason
  | DENOMINATOR_ZERO
  | EMPTY_ARRAY
  | ALL_WEIGHTS_ZERO
  | NO_VALID_VALUES
  | NEGATIVE_VALUE
  | OVERFLOW_PROTECTION
  | NORMALIZATION_FALLBACK
deriving DecidableEq, Repr

/-- `safe_clamp(value, min_val, max_val)`: `max(min_val, min(max_val, value))`. -/
def safe_clamp (value min_val max_val : ℚ) : ℚ :=
  max min_val (min max_val value)

/-- `safe_risk_score(raw_score, min_score, max_score)`: clamp with a reason
code saying which bound fired. -/
def safe_risk_score (raw_score min_score max_score : ℚ) :
    ℚ × Option MathFallbackReason :=
  if raw_score < min_score then (min_score, some .NEGATIVE_VALUE)
  else if raw_score > max_score then (max_score, some .OVERFLOW_PROTECTION)
  else (raw_score, none)

/-- Python's `round(x, 2)`: round to two decimal places. (Python rounds
half-to-even on floats; no value evaluated below lands on a half-tie, so the
half-up `round` of Mathlib agrees at every point used.) -/
def round2 (x : ℚ) : ℚ := (round (100 * x) : ℤ) / 100

/-! ## Evidence inputs (models/vision.py, models/sensor.py)

The evidence providers are out of scope (spec §1); their outputs are
inputs here. A `Detection`'s `confidence` is validated `ge=0, le=1` by the
provider contract, as is `sabotage_likelihood`; the claims carry that as a
precondition. -/

/-- One vision detection (`Detection` of models/vision.py, the fields the
classification engine reads). -/
structure Detection where
  class_label : DetectionClass
  confidence : ℚ
deriving DecidableEq, Repr

/-- Vision analysis result (`VisionAnalysisResponse`, fields read by
`IntentService`). -/
structure VisionAnalysis where
  vision_risk_score : ℚ
  detections : List Detection
deriving DecidableEq, Repr

/-- Sensor analysis result (`SensorAnalysisResponse`, fields read by
`IntentService`). -/
structure SensorAnalysis where
  sensor_risk_score : ℚ
  is_coordinated : Bool
  sabotage_likelihood : ℚ
deriving DecidableEq, Repr

/-! ## Temporal context (IntentService._calculate_temporal_context) -/

/-- `TemporalContext` of models/intent.py (notes and raw timestamp omitted;
the hour is the only component of the timestamp the source reads). -/
structure TemporalContext where
  hour_of_day : ℕ
  is_night_hours : Bool
  is_peak_hours : Bool
  is_maintenance_window : Bool
  time_risk_modifier : ℚ
deriving DecidableEq, Repr

/-- `IntentService._calculate_temporal_context`, with the timestamp given by
its hour (0–23). -/
def calculate_temporal_context (cfg : Config) (hour : ℕ) : TemporalContext :=
  let is_night := 22 ≤ hour ∨ hour < 5
  let is_early_morning := 5 ≤ hour ∧ hour < 7
  let is_peak := (7 ≤ hour ∧ hour < 10) ∨ (17 ≤ hour ∧ hour < 20)
  let modifier :=
    if is_night then cfg.TIME_WEIGHT_night_hours
    else if is_early_morning then cfg.TIME_WEIGHT_early_morning
    else if is_peak then cfg.TIME_WEIGHT_peak_hours
    else 1
  { hour_of_day := hour
    is_night_hours := decide is_night
    is_peak_hours := decide is_peak
    is_maintenance_window := false
    time_risk_modifier := modifier }

/-! ## Classification engine (services/intent_service.py) -/

/-- The override test of `IntentService._determine_classification`: a
detection of `missing_fish_plate` or `track_displacement` with confidence
≥ 0.85. -/
def isOverrideDetection (d : Detection) : Bool :=
  (d.class_label = .missing_fish_plate ∨ d.class_label = .track_displacement)
    ∧ 85/100 ≤ d.confidence

/-- The `for d in vision_analysis.detections` loop of
`_determine_classification`: the first detection passing the override test
(the loop `return`s at the first hit). -/
def findOverrideDetection : List Detection → Option Detection
  | [] => none
  | d :: ds => if isOverrideDetection d then some d else findOverrideDetection ds

/-- The threshold tail of `IntentService._determine_classification`
(the code after both override checks, verbatim). -/
def thresholdClassify (cfg : Config) (risk_score : ℚ) :
    TamperingClassification × ℚ :=
  let threshold_safe := max cfg.RISK_THRESHOLD_SAFE (1/100)
  let threshold_suspicious :=
    max cfg.RISK_THRESHOLD_SUSPICIOUS (threshold_safe + 1/100)
  let suspicious_range := threshold_suspicious - threshold_safe
  let tampering_range := 100 - threshold_suspicious
  if risk_score < threshold_safe then
    let confidence :=
      if threshold_safe > 0 then 1 - risk_score / threshold_safe else 1
    (.SAFE, round2 (max confidence 0))
  else if risk_score < threshold_suspicious then
    let confidence :=
      if suspicious_range > 0 then
        1/2 + (risk_score - threshold_safe) / suspicious_range * (3/10)
      else 13/20
    (.SUSPICIOUS, round2 confidence)
  else
    let confidence :=
      if tampering_range > 0 then
        7/10 + (risk_score - threshold_suspicious) / tampering_range * (3/10)
      else 17/20
    (.CONFIRMED_TAMPERING, round2 (min confidence 1))

/-- `IntentService._determine_classification`: vision override, then the
coordinated-sensor override, then thresholds. -/
def determine_classification (cfg : Config) (risk_score : ℚ)
    (vision_analysis : Option VisionAnalysis)
    (sensor_analysis : Option SensorAnalysis) :
    TamperingClassification × ℚ :=
  match vision_analysis.bind (fun va => findOverrideDetection va.detections) with
  | some d => (.CONFIRMED_TAMPERING, d.confidence)
  | none =>
    match sensor_analysis with
    | some sa =>
      if sa.is_coordinated ∧ 7/10 ≤ sa.sabotage_likelihood then
        (.CONFIRMED_TAMPERING, sa.sabotage_likelihood)
      else thresholdClassify cfg risk_score
    | none => thresholdClassify cfg risk_score

/-- The verdict fields of `IntentClassifyResponse` that the claims concern
(ids, risk factors, reasons, actions and timing omitted). -/
structure ClassifyResponse where
  classification : TamperingClassification
  risk_score : ℚ
  confidence : ℚ
  vision_risk_score : ℚ
  sensor_risk_score : ℚ
  temporal_modifier : ℚ
deriving DecidableEq, Repr

/-- Step 4 of `IntentService.classify`: default missing analyses to score 0,
clamp the component scores, weight them 45% + 45%, apply the (non-negative)
temporal modifier and clamp the result to [0, 100]. -/
def classify_final_score (cfg : Config) (hour : ℕ)
    (vision_analysis : Option VisionAnalysis)
    (sensor_analysis : Option SensorAnalysis) : ℚ :=
  let temporal_context := calculate_temporal_context cfg hour
  let vision_score0 :=
    match vision_analysis with | some va => va.vision_risk_score | none => 0
  let sensor_score0 :=
    match sensor_analysis with | some sa => sa.sensor_risk_score | none => 0
  let vision_score := safe_clamp vision_score0 0 100
  let sensor_score := safe_clamp sensor_score0 0 100
  let base_score := vision_score * (45/100) + sensor_score * (45/100)
  let temporal_mod := max temporal_context.time_risk_modifier 0
  (safe_risk_score (base_score * temporal_mod) 0 100).1

/-- The scoring and classification pipeline of `IntentService.classify`
(steps 3–6 of the source; the evidence analyses arrive as inputs, the
fire-and-forget broadcast and the explanation fields are omitted). -/
def classify (cfg : Config) (hour : ℕ)
    (vision_analysis : Option VisionAnalysis)
    (sensor_analysis : Option SensorAnalysis) : ClassifyResponse :=
  let final_score := classify_final_score cfg hour vision_analysis sensor_analysis
  let cc := determine_classification cfg final_score vision_analysis sensor_analysis
  { classification := cc.1
    risk_score := round2 final_score
    confidence := cc.2
    vision_risk_score :=
      safe_clamp (match vision_analysis with
        | some va => va.vision_risk_score | none => 0) 0 100
    sensor_risk_score :=
      safe_clamp (match sensor_analysis with
        | some sa => sa.sensor_risk_score | none => 0) 0 100
    temporal_modifier := (calculate_temporal_context cfg hour).time_risk_modifier }

/-! ## Alert lifecycle manager (services/alert_service.py) -/

/-- The `Alert` entity of models/alert.py (display-only
title/description, `evidence_urls`, `expires_at` and `is_simulated`
omitted; note the model has no field for a resolver identity or a
ground-truth tampering flag). -/
structure Alert where
  alert_id : String
  zone_id : String
  classification_id : String
  severity : SeverityLevel
  status : AlertStatus
  risk_score : ℚ
  classification : TamperingClassification
  reasons : List String
  created_at : ℚ
  updated_at : ℚ
  acknowledged : Bool
  acknowledged_by : Option String
  acknowledged_at : Option ℚ
  acknowledgement_notes : Option String
  escalation_level : EscalationLevel
  escalated_at : Option ℚ
  resolved_at : Option ℚ
  resolution_notes : Option String
deriving DecidableEq, Repr

/-- The mutable state of `AlertService`: the registry `_alerts` (a dict
keyed by `alert_id`, modelled as an association list appended in creation
order: uuid keys are fresh), `_zone_last_alert` and `_zone_alert_counts`
(a `defaultdict(list)`, modelled as a total function with empty default). -/
structure AlertState where
  alerts : List (String × Alert)
  zone_last_alert : String → Option ℚ
  zone_alert_counts : String → List ℚ

/-- The state of a freshly constructed `AlertService`. -/
def emptyAlertState : AlertState where
  alerts := []
  zone_last_alert := fun _ => none
  zone_alert_counts := fun _ => []

/-- Dict lookup in the alert registry (`self._alerts.get(alert_id)`). -/
def lookupAlert : List (String × Alert) → String → Option Alert
  | [], _ => none
  | (k, a) :: rest, id => if k = id then some a else lookupAlert rest id

/-- In-place mutation of one registry entry (`alert.<field> = ...` on the
object stored in the dict). -/
def updateAlert (l : List (String × Alert)) (id : String) (f : Alert → Alert) :
    List (String × Alert) :=
  l.map (fun p => if p.1 = id then (p.1, f p.2) else p)

/-- `AlertService._check_cooldown`: true when the zone may alert again
(no previous alert, or elapsed ≥ `ALERT_COOLDOWN_SECONDS`). -/
def check_cooldown (cfg : Config) (s : AlertState) (now : ℚ)
    (zone_id : String) : Bool :=
  match s.zone_last_alert zone_id with
  | none => true
  | some last_alert => cfg.ALERT_COOLDOWN_SECONDS ≤ now - last_alert

/-- `AlertService._check_flooding`: purges entries older than one hour from
the zone's sliding window (a mutation of `_zone_alert_counts`), then
compares the count with `MAX_ALERTS_PER_HOUR`. Returns the purged window
and the verdict. -/
def check_flooding (cfg : Config) (s : AlertState) (now : ℚ)
    (zone_id : String) : Bool × List ℚ :=
  let purged := (s.zone_alert_counts zone_id).filter (fun t => now - 3600 < t)
  (purged.length < cfg.MAX_ALERTS_PER_HOUR, purged)

/-- `AlertService._determine_severity`: first configured `(min, max)` range
containing the score; iterating `SEVERITY_THRESHOLDS` in order. -/
def severityFromRanges : List (SeverityLevel × ℚ × ℚ) → ℚ → Option SeverityLevel
  | [], _ => none
  | (severity, min_score, max_score) :: rest, risk_score =>
    if min_score ≤ risk_score ∧ risk_score ≤ max_score then some severity
    else severityFromRanges rest risk_score

/-- `AlertService._determine_severity`, with its hard-coded fallback:
below 25 → LOW, otherwise CRITICAL. -/
def determine_severity (cfg : Config) (risk_score : ℚ) : SeverityLevel :=
  match severityFromRanges cfg.SEVERITY_THRESHOLDS risk_score with
  | some severity => severity
  | none => if risk_score < 25 then .LOW else .CRITICAL

/-- `AlertService.create_alert_from_classification`. Returns the created
alert (or `none`) and the updated service state. `fresh_id` stands for the
generated `alert_{uuid}` identifier; `now` for `datetime.utcnow()`. -/
def create_alert_from_classification (cfg : Config) (s : AlertState)
    (now : ℚ) (fresh_id : String) (zone_id classification_id : String)
    (classification : TamperingClassification) (risk_score : ℚ)
    (reasons : List String) : Option Alert × AlertState :=
  if classification = .SAFE then (none, s)
  else if ¬ check_cooldown cfg s now zone_id then (none, s)
  else
    let flood := check_flooding cfg s now zone_id
    let s' := { s with zone_alert_counts :=
      fun w => if w = zone_id then flood.2 else s.zone_alert_counts w }
    if ¬ flood.1 then (none, s')
    else
      let severity := determine_severity cfg risk_score
      let alert : Alert :=
        { alert_id := fresh_id
          zone_id := zone_id
          classification_id := classification_id
          severity := severity
          status := .ACTIVE
          risk_score := risk_score
          classification := classification
          reasons := reasons.take 5
          created_at := now
          updated_at := now
          acknowledged := false
          acknowledged_by := none
          acknowledged_at := none
          acknowledgement_notes := none
          escalation_level := .INITIAL
          escalated_at := none
          resolved_at := none
          resolution_notes := none }
      (some alert,
        { alerts := s'.alerts ++ [(alert.alert_id, alert)]
          zone_last_alert :=
            fun w => if w = zone_id then some now else s.zone_last_alert w
          zone_alert_counts :=
            fun w => if w = zone_id then flood.2 ++ [now]
                     else s.zone_alert_counts w })

/-- `AlertResolveRequest` of models/alert.py (`resolution_notes` carries a
`min_length=10` validation). -/
structure AlertResolveRequest where
  alert_id : String
  resolved_by : String
  resolution_notes : String
  was_actual_tampering : Bool
deriving DecidableEq, Repr

/-- `AlertService.resolve_alert`: `None` for an unknown id, otherwise sets
status RESOLVED, `resolved_at`, `resolution_notes` and `updated_at` on the
stored alert. (The source reads neither `resolved_by` nor
`was_actual_tampering` of the request.) -/
def resolve_alert (s : AlertState) (now : ℚ) (request : AlertResolveRequest) :
    Option Alert × AlertState :=
  match lookupAlert s.alerts request.alert_id with
  | none => (none, s)
  | some alert =>
    let alert' := { alert with
      status := .RESOLVED
      resolved_at := some now
      resolution_notes := some request.resolution_notes
      updated_at := now }
    let setResolved : Alert → Alert := fun a =>
      { a with
        status := .RESOLVED
        resolved_at := some now
        resolution_notes := some request.resolution_notes
        updated_at := now }
    (some alert', { s with alerts := updateAlert s.alerts request.alert_id setResolved })

/-- The per-alert body of the `AlertService.check_escalations` loop:
skip non-ACTIVE or acknowledged alerts, then escalate one level when the
per-severity timeout has elapsed and the level is below EMERGENCY. -/
def escalateOne (cfg : Config) (now : ℚ) (alert : Alert) : Alert :=
  if alert.status ≠ .ACTIVE then alert
  else if alert.acknowledged then alert
  else
    let timeout := cfg.ESCALATION_TIMEOUT alert.severity
    let elapsed := now - alert.created_at
    if timeout < elapsed ∧ alert.escalation_level.val < EscalationLevel.EMERGENCY.val then
      { alert with
        escalation_level := alert.escalation_level.next
        escalated_at := some now
        status := .ESCALATED }
    else alert

/-- `AlertService.check_escalations`: one pass over the registry. -/
def check_escalations (cfg : Config) (now : ℚ) (s : AlertState) : AlertState :=
  { s with alerts := s.alerts.map (fun p => (p.1, escalateOne cfg now p.2)) }

/-! ## Run controller (simulation_controller.py) -/

/-- `SimulationState` of simulation_controller.py. -/
inductive SimulationState
  | STOPPED
  | RUNNING
  | ERROR
deriving DecidableEq, Repr

/-- The mutable fields of `SimulationController`. -/
structure ControllerState where
  state : SimulationState
  started_at : Option ℚ
  last_run_at : Option ℚ
  run_count : ℕ
  error_message : Option String
deriving DecidableEq, Repr

/-- A freshly constructed controller (STOPPED). -/
def initController : ControllerState where
  state := .STOPPED
  started_at := none
  last_run_at := none
  run_count := 0
  error_message := none

/-- The dict `run_single` returns (`result` kept only as presence/absence). -/
structure RunPayload where
  success : Bool
  result : Option ClassifyResponse
  error : Option String
  state : SimulationState
deriving DecidableEq, Repr

/-- The sequential effect of one `SimulationController.run_single` call:
first critical section (state := RUNNING, record start, clear error), then
the classification cycle — whose outcome, success or raised exception with
message, is the `cycle` argument — then the second critical section and the
returned payload. `tstart`/`tend` stand for the two `utcnow()` readings. -/
def run_single_outcome (s : ControllerState) (tstart tend : ℚ)
    (cycle : Except String ClassifyResponse) : RunPayload × ControllerState :=
  let running : ControllerState :=
    { s with state := .RUNNING, started_at := some tstart, error_message := none }
  match cycle with
  | .ok response =>
    let payload : RunPayload :=
      { success := true, result := some response, error := none, state := .STOPPED }
    let final : ControllerState :=
      { running with
        state := .STOPPED
        last_run_at := some tend
        run_count := running.run_count + 1 }
    (payload, final)
  | .error e =>
    let payload : RunPayload :=
      { success := false, result := none, error := some e, state := .ERROR }
    (payload, { running with state := .ERROR, error_message := some e })

/-- `SimulationController.reset`: ERROR → STOPPED with the error cleared;
a no-op (with only a log line) in RUNNING or STOPPED. -/
def reset (s : ControllerState) : ControllerState :=
  if s.state = .ERROR then { s with state := .STOPPED, error_message := none }
  else s

/-! ### Interleaving model of `run_single` (for the concurrency claim)

`run_single` holds `self._lock` only around the two state-update sections;
the classification cycle itself runs between them with the lock released
(the `try` block sits outside the `async with self._lock` blocks). Each
task's program counter walks `entry → crit1 → cycle → crit2 → done`, where
`crit1`/`crit2` are the two lock-protected sections; the success finish is
modelled (the error finish differs only in the written state and does not
affect which phases may overlap). -/

/-- Program counter of one `run_single` caller. -/
inductive TaskPc
  | entry
  | crit1
  | cycle
  | crit2
  | done
deriving DecidableEq, Repr

/-- A configuration of two concurrent `run_single` callers sharing the
controller's lock and state. -/
structure RunConfig where
  pcA : TaskPc
  pcB : TaskPc
  lock : Bool
  simState : SimulationState
deriving DecidableEq, Repr

/-- Both callers waiting, lock free, controller STOPPED. -/
def initRunConfig : RunConfig where
  pcA := .entry
  pcB := .entry
  lock := false
  simState := .STOPPED

/-- One interleaving step: a task acquires the free lock to enter a critical
section, or finishes a critical section (writing the controller state and
releasing the lock). Acquiring blocks only while the lock is held. -/
inductive RunStep : RunConfig → RunConfig → Prop
  | acquire1A (c : RunConfig) (h1 : c.pcA = .entry) (h2 : c.lock = false) :
      RunStep c { c with pcA := .crit1, lock := true }
  | release1A (c : RunConfig) (h1 : c.pcA = .crit1) :
      RunStep c { c with pcA := .cycle, lock := false, simState := .RUNNING }
  | acquire2A (c : RunConfig) (h1 : c.pcA = .cycle) (h2 : c.lock = false) :
      RunStep c { c with pcA := .crit2, lock := true }
  | release2A (c : RunConfig) (h1 : c.pcA = .crit2) :
      RunStep c { c with pcA := .done, lock := false, simState := .STOPPED }
  | acquire1B (c : RunConfig) (h1 : c.pcB = .entry) (h2 : c.lock = false) :
      RunStep c { c with pcB := .crit1, lock := true }
  | release1B (c : RunConfig) (h1 : c.pcB = .crit1) :
      RunStep c { c with pcB := .cycle, lock := false, simState := .RUNNING }
  | acquire2B (c : RunConfig) (h1 : c.pcB = .cycle) (h2 : c.lock = false) :
      RunStep c { c with pcB := .crit2, lock := true }
  | release2B (c : RunConfig) (h1 : c.pcB = .crit2) :
      RunStep c { c with pcB := .done, lock := false, simState := .STOPPED }

/-- Configurations reachable from the initial one. -/
def RunReachable (c : RunConfig) : Prop :=
  Relation.ReflTransGen RunStep initRunConfig c

/-- A task is inside a lock-protected section. -/
def inCrit (pc : TaskPc) : Prop := pc = .crit1 ∨ pc = .crit2

/-- The concurrency claim as stated: in no reachable interleaving are both
callers simultaneously executing the classification cycle (full cycles
serialized end-to-end). -/
def runSingleSerialized : Prop :=
  ∀ c : RunConfig, RunReachable c →
    ¬ (c.pcA = TaskPc.cycle ∧ c.pcB = TaskPc.cycle)

/-- Invariant of the interleaving model: when the lock is free nobody is in
a critical section, and the two tasks are never in critical sections at
once. -/
def RunInv (c : RunConfig) : Prop :=
  (c.lock = false → ¬ inCrit c.pcA ∧ ¬ inCrit c.pcB) ∧
    ¬ (inCrit c.pcA ∧ inCrit c.pcB)

/-! ### Sample data for concrete instantiations -/

/-- A concrete ACTIVE, unacknowledged alert used to instantiate theorems. -/
def sampleAlert : Alert where
  alert_id := "a1"
  zone_id := "Z1"
  classification_id := "c1"
  severity := .HIGH
  status := .ACTIVE
  risk_score := 75
  classification := .SUSPICIOUS
  reasons := []
  created_at := 0
  updated_at := 0
  acknowledged := false
  acknowledged_by := none
  acknowledged_at := none
  acknowledgement_notes := none
  escalation_level := .INITIAL
  escalated_at := none
  resolved_at := none
  resolution_notes := none

/-- An alert-service state holding just `sampleAlert`. -/
def sampleState : AlertState where
  alerts := [("a1", sampleAlert)]
  zone_last_alert := fun _ => none
  zone_alert_counts := fun _ => []

/-! ## Lemmas on the numeric guards -/

theorem le_safe_clamp (v lo hi : ℚ) : lo ≤ safe_clamp v lo hi :=
  le_max_left _ _

theorem safe_clamp_le {lo hi : ℚ} (v : ℚ) (h : lo ≤ hi) : safe_clamp v lo hi ≤ hi :=
  max_le h (min_le_left _ _)

theorem safe_risk_score_bounds {lo hi : ℚ} (v : ℚ) (h : lo ≤ hi) :
    lo ≤ (safe_risk_score v lo hi).1 ∧ (safe_risk_score v lo hi).1 ≤ hi := by
  unfold safe_risk_score
  split_ifs with h1 h2 <;> constructor <;> simp <;> linarith

theorem round2_mono {x y : ℚ} (h : x ≤ y) : round2 x ≤ round2 y := by
  unfold round2
  have hr : round (100 * x) ≤ round (100 * y) := by
    rw [round_eq, round_eq]
    exact Int.floor_le_floor (by linarith)
  have : ((round (100 * x) : ℤ) : ℚ) ≤ ((round (100 * y) : ℤ) : ℚ) :=
    Int.cast_le.mpr hr
  linarith

/-- `round2` keeps a value inside an interval whose endpoints it fixes. -/
theorem round2_mem {a b x : ℚ} (hax : a ≤ x) (hxb : x ≤ b)
    (ha : round2 a = a) (hb : round2 b = b) :
    a ≤ round2 x ∧ round2 x ≤ b :=
  ⟨ha ▸ round2_mono hax, hb ▸ round2_mono hxb⟩

theorem round2_zero : round2 0 = 0 := by
  rw [round2, mul_zero, round_zero]
  norm_num

theorem round2_one : round2 1 = 1 := by
  rw [round2, round_eq]
  norm_num [Int.floor_eq_iff]

theorem round2_hundred : round2 100 = 100 := by
  rw [round2, round_eq]
  norm_num [Int.floor_eq_iff]

/-! ## Confidence bounds through the classification paths -/

theorem thresholdClassify_confidence_bounds (cfg : Config) {rs : ℚ}
    (h0 : 0 ≤ rs) (h100 : rs ≤ 100) :
    0 ≤ (thresholdClassify cfg rs).2 ∧ (thresholdClassify cfg rs).2 ≤ 1 := by
  unfold thresholdClassify
  dsimp only
  have hts0 : (0 : ℚ) < max cfg.RISK_THRESHOLD_SAFE (1/100) :=
    lt_of_lt_of_le (by norm_num) (le_max_right _ _)
  have htssu : max cfg.RISK_THRESHOLD_SAFE (1/100) <
      max cfg.RISK_THRESHOLD_SUSPICIOUS (max cfg.RISK_THRESHOLD_SAFE (1/100) + 1/100) :=
    lt_of_lt_of_le (by linarith) (le_max_right _ _)
  set ts := max cfg.RISK_THRESHOLD_SAFE (1/100) with hts
  set tsu := max cfg.RISK_THRESHOLD_SUSPICIOUS (ts + 1/100) with htsu
  split_ifs with h1 h2 h3 h4
  · -- SAFE (ts > 0 holds by hts0)
    have hdiv : 0 ≤ rs / ts := div_nonneg h0 hts0.le
    exact round2_mem (le_max_right _ _)
      (max_le (by linarith) (by norm_num)) round2_zero round2_one
  · -- SUSPICIOUS, suspicious_range > 0
    have hge : ts ≤ rs := not_lt.mp h1
    have hden : (0 : ℚ) < tsu - ts := by linarith
    have hr0 : 0 ≤ (rs - ts) / (tsu - ts) := div_nonneg (by linarith) hden.le
    have hr1 : (rs - ts) / (tsu - ts) ≤ 1 := (div_le_one hden).mpr (by linarith)
    refine round2_mem ?_ ?_ round2_zero round2_one <;> nlinarith
  · exact absurd (by linarith : tsu - ts > 0) h3
  · -- CONFIRMED, tampering_range > 0
    have hge : tsu ≤ rs := not_lt.mp h2
    have hden : (0 : ℚ) < 100 - tsu := h4
    have hr0 : 0 ≤ (rs - tsu) / (100 - tsu) := div_nonneg (by linarith) hden.le
    have hr1 : (rs - tsu) / (100 - tsu) ≤ 1 := (div_le_one hden).mpr (by linarith)
    refine round2_mem ?_ ?_ round2_zero round2_one
    · exact le_min (by nlinarith) (by norm_num)
    · exact min_le_right _ _
  · -- CONFIRMED, degenerate range (tsu ≥ 100)
    refine round2_mem ?_ ?_ round2_zero round2_one
    · exact le_min (by norm_num) (by norm_num)
    · exact min_le_right _ _

theorem findOverrideDetection_eq_some {l : List Detection} {d : Detection}
    (h : findOverrideDetection l = some d) :
    d ∈ l ∧ isOverrideDetection d = true := by
  induction l with
  | nil => simp [findOverrideDetection] at h
  | cons a as ih =>
    by_cases ha : isOverrideDetection a
    · simp [findOverrideDetection, ha] at h
      subst h
      exact ⟨List.mem_cons_self _ _, ha⟩
    · simp [findOverrideDetection, ha] at h
      obtain ⟨hm, ho⟩ := ih h
      exact ⟨List.mem_cons_of_mem _ hm, ho⟩

theorem findOverrideDetection_isSome {l : List Detection}
    (h : ∃ d ∈ l, isOverrideDetection d = true) :
    ∃ d0, findOverrideDetection l = some d0 := by
  induction l with
  | nil => simp at h
  | cons a as ih =>
    by_cases ha : isOverrideDetection a
    · exact ⟨a, by simp [findOverrideDetection, ha]⟩
    · obtain ⟨d, hd, ho⟩ := h
      rcases List.mem_cons.mp hd with rfl | hmem
      · exact absurd ho ha
      · obtain ⟨d0, hd0⟩ := ih ⟨d, hmem, ho⟩
        exact ⟨d0, by simp [findOverrideDetection, ha, hd0]⟩

theorem determine_classification_confidence_bounds (cfg : Config) {rs : ℚ}
    (h0 : 0 ≤ rs) (h100 : rs ≤ 100)
    (visionA : Option VisionAnalysis) (sensorA : Option SensorAnalysis)
    (hdet : ∀ va ∈ visionA, ∀ d ∈ va.detections, 0 ≤ d.confidence ∧ d.confidence ≤ 1)
    (hsab : ∀ sa ∈ sensorA, 0 ≤ sa.sabotage_likelihood ∧ sa.sabotage_likelihood ≤ 1) :
    0 ≤ (determine_classification cfg rs visionA sensorA).2 ∧
      (determine_classification cfg rs visionA sensorA).2 ≤ 1 := by
  unfold determine_classification
  rcases hfo : visionA.bind (fun va => findOverrideDetection va.detections) with _ | d
  · rcases sensorA with _ | sa
    · exact thresholdClassify_confidence_bounds cfg h0 h100
    · by_cases hc : sa.is_coordinated = true ∧ 7/10 ≤ sa.sabotage_likelihood
      · simpa [hc] using hsab sa (Option.mem_some_iff.mpr rfl)
      · simpa [hc] using thresholdClassify_confidence_bounds cfg h0 h100
  · obtain ⟨va, hva, hfind⟩ := Option.bind_eq_some.mp hfo
    obtain ⟨hmem, _⟩ := findOverrideDetection_eq_some hfind
    simpa using hdet va hva d hmem

/-- C1: for every classification call, whatever the supplied vision and
sensor scores and whatever the temporal multiplier (any configuration and
hour), the final risk score lies in [0, 100] and the confidence in [0, 1],
under the provider-contract precondition that each detection's confidence
and the sensor sabotage likelihood lie in [0, 1]. -/
theorem classify_scores_bounded (cfg : Config) (hour : ℕ)
    (visionA : Option VisionAnalysis) (sensorA : Option SensorAnalysis)
    (hdet : ∀ va ∈ visionA, ∀ d ∈ va.detections, 0 ≤ d.confidence ∧ d.confidence ≤ 1)
    (hsab : ∀ sa ∈ sensorA, 0 ≤ sa.sabotage_likelihood ∧ sa.sabotage_likelihood ≤ 1) :
    0 ≤ (classify cfg hour visionA sensorA).risk_score ∧
      (classify cfg hour visionA sensorA).risk_score ≤ 100 ∧
      0 ≤ (classify cfg hour visionA sensorA).confidence ∧
      (classify cfg hour visionA sensorA).confidence ≤ 1 := by
  have hfs : 0 ≤ classify_final_score cfg hour visionA sensorA ∧
      classify_final_score cfg hour visionA sensorA ≤ 100 := by
    unfold classify_final_score
    dsimp only
    exact safe_risk_score_bounds _ (by norm_num)
  have hr := round2_mem hfs.1 hfs.2 round2_zero round2_hundred
  have hc := determine_classification_confidence_bounds cfg hfs.1 hfs.2
    visionA sensorA hdet hsab
  simp only [classify]
  exact ⟨hr.1, hr.2, hc.1, hc.2⟩

/-- Witness for C1 at a concrete out-of-range input (vision score 250,
sensor score −40, night hour). -/
theorem classify_scores_bounded_witness :
    0 ≤ (classify defaultConfig 23 (some ⟨250, []⟩) (some ⟨-40, false, 0⟩)).risk_score ∧
      (classify defaultConfig 23 (some ⟨250, []⟩) (some ⟨-40, false, 0⟩)).risk_score ≤ 100 ∧
      0 ≤ (classify defaultConfig 23 (some ⟨250, []⟩) (some ⟨-40, false, 0⟩)).confidence ∧
      (classify defaultConfig 23 (some ⟨250, []⟩) (some ⟨-40, false, 0⟩)).confidence ≤ 1 :=
  classify_scores_bounded defaultConfig 23 (some ⟨250, []⟩) (some ⟨-40, false, 0⟩)
    (by intro va hva d hd; simp at hva; subst hva; simp at hd)
    (by intro sa hsa; simp at hsa; subst hsa; norm_num)

/-- C2: any vision detection of class `missing_fish_plate` or
`track_displacement` with confidence ≥ 0.85 forces classification
CONFIRMED_TAMPERING, with the result's confidence equal to the (first such)
detection's confidence — for every configuration, hour (hence temporal
multiplier), vision score and sensor analysis. -/
theorem override_detection_forces_confirmed (cfg : Config) (hour : ℕ)
    (va : VisionAnalysis) (sensorA : Option SensorAnalysis)
    (h : ∃ d ∈ va.detections, isOverrideDetection d = true) :
    (classify cfg hour (some va) sensorA).classification =
      TamperingClassification.CONFIRMED_TAMPERING ∧
    ∃ d ∈ va.detections, isOverrideDetection d = true ∧
      (classify cfg hour (some va) sensorA).confidence = d.confidence := by
  obtain ⟨d0, hd0⟩ := findOverrideDetection_isSome h
  obtain ⟨hmem, hov⟩ := findOverrideDetection_eq_some hd0
  have hdc : determine_classification cfg
      (classify_final_score cfg hour (some va) sensorA) (some va) sensorA =
      (TamperingClassification.CONFIRMED_TAMPERING, d0.confidence) := by
    unfold determine_classification
    simp [hd0]
  refine ⟨?_, d0, hmem, hov, ?_⟩ <;> simp [classify, hdc]

/-- Witness for C2: a `missing_fish_plate` detection at confidence 0.9 with
`vision_score = 0`, `sensor_score = 0` and temporal multiplier 1.0 (hour 12),
which the thresholds alone would classify SAFE. -/
theorem override_detection_forces_confirmed_witness :
    (classify defaultConfig 12
        (some ⟨0, [⟨.missing_fish_plate, 9/10⟩]⟩)
        (some ⟨0, false, 0⟩)).classification =
      TamperingClassification.CONFIRMED_TAMPERING ∧
    ∃ d ∈ [(⟨.missing_fish_plate, 9/10⟩ : Detection)], isOverrideDetection d = true ∧
      (classify defaultConfig 12
        (some ⟨0, [⟨.missing_fish_plate, 9/10⟩]⟩)
        (some ⟨0, false, 0⟩)).confidence = d.confidence :=
  override_detection_forces_confirmed defaultConfig 12
    ⟨0, [⟨.missing_fish_plate, 9/10⟩]⟩ (some ⟨0, false, 0⟩)
    ⟨⟨.missing_fish_plate, 9/10⟩, by simp, by norm_num [isOverrideDetection]⟩

/-- C3 counterexample: in the spec's end-to-end scenario (vision 80,
sensor 70, temporal multiplier 1.3 at hour 23), the computed confidence is
0.91, not ≈ 0.83 — it differs from 0.83 by 0.08, far outside any
two-decimal reading of "approximately". -/
theorem scenario_confidence_is_091_not_083 :
    (classify defaultConfig 23 (some ⟨80, []⟩) (some ⟨70, false, 0⟩)).confidence
        = 91/100 ∧
      5/1000 < (classify defaultConfig 23 (some ⟨80, []⟩)
          (some ⟨70, false, 0⟩)).confidence - 83/100 := by
  constructor <;>
    norm_num [classify, classify_final_score, determine_classification,
      findOverrideDetection, thresholdClassify, calculate_temporal_context,
      safe_clamp, safe_risk_score, round2, round_eq, defaultConfig,
      Int.floor_eq_iff]

/-- C3 (amended): the end-to-end scenario — vision 80, sensor 70, night
hour (multiplier 1.3) — yields base 67.5, final risk score 87.75
(= 67.5 × 1.3), classification CONFIRMED_TAMPERING with confidence 0.91,
and, for a zone with no prior alerts, exactly one Alert with severity
CRITICAL. -/
theorem scenario_end_to_end :
    (classify defaultConfig 23 (some ⟨80, []⟩) (some ⟨70, false, 0⟩)).risk_score
        = (135/2) * (13/10) ∧
      (classify defaultConfig 23 (some ⟨80, []⟩) (some ⟨70, false, 0⟩)).temporal_modifier
        = 13/10 ∧
      (classify defaultConfig 23 (some ⟨80, []⟩) (some ⟨70, false, 0⟩)).classification
        = TamperingClassification.CONFIRMED_TAMPERING ∧
      (classify defaultConfig 23 (some ⟨80, []⟩) (some ⟨70, false, 0⟩)).confidence
        = 91/100 ∧
      (Option.map Alert.severity
        (create_alert_from_classification defaultConfig emptyAlertState 0 "alert_1"
          "Z1" "cls_1" .CONFIRMED_TAMPERING (351/4) []).1) = some .CRITICAL ∧
      (create_alert_from_classification defaultConfig emptyAlertState 0 "alert_1"
          "Z1" "cls_1" .CONFIRMED_TAMPERING (351/4) []).2.alerts.length = 1 := by
  refine ⟨?_, ?_, ?_, ?_, ?_, ?_⟩ <;>
    norm_num [classify, classify_final_score, determine_classification,
      findOverrideDetection, thresholdClassify, calculate_temporal_context,
      safe_clamp, safe_risk_score, round2, round_eq, defaultConfig,
      Int.floor_eq_iff, create_alert_from_classification, check_cooldown,
      check_flooding, determine_severity, severityFromRanges, emptyAlertState,
      show (TamperingClassification.CONFIRMED_TAMPERING =
        TamperingClassification.SAFE) = False by simp]

/-- C4: no Alert is ever created for a SAFE classification; the registry and
the per-zone gate counters are returned unchanged. -/
theorem no_alert_for_safe (cfg : Config) (s : AlertState) (now : ℚ)
    (fresh_id zone_id classification_id : String) (risk_score : ℚ)
    (reasons : List String) :
    create_alert_from_classification cfg s now fresh_id zone_id
      classification_id TamperingClassification.SAFE risk_score reasons
      = (none, s) := by
  simp [create_alert_from_classification]

/-- C7 counterexample: the configured severity ranges have gaps between
their integer endpoints. Risk score 49.5 (reachable: it is rounded to two
decimals, not an integer) lies in [0, 100], is contained in none of the four
configured ranges, is not below all ranges (it is ≥ 25), and is not above
all ranges (it is ≤ 100) — yet `_determine_severity` returns CRITICAL, so
the claimed LOW-below/CRITICAL-above characterization is false. -/
theorem severity_gap_49_5_is_critical :
    determine_severity defaultConfig (99/2) = SeverityLevel.CRITICAL ∧
      (0 : ℚ) ≤ 99/2 ∧ (99/2 : ℚ) ≤ 100 ∧
      ¬ ((25 : ℚ) ≤ 99/2 ∧ (99/2 : ℚ) ≤ 49) ∧
      ¬ ((50 : ℚ) ≤ 99/2 ∧ (99/2 : ℚ) ≤ 69) ∧
      ¬ ((70 : ℚ) ≤ 99/2 ∧ (99/2 : ℚ) ≤ 84) ∧
      ¬ ((85 : ℚ) ≤ 99/2 ∧ (99/2 : ℚ) ≤ 100) ∧
      ¬ ((99/2 : ℚ) < 25) ∧
      ¬ ((100 : ℚ) < 99/2) := by
  refine ⟨?_, by norm_num, by norm_num, by norm_num, by norm_num, by norm_num,
    by norm_num, by norm_num, by norm_num⟩
  norm_num [determine_severity, severityFromRanges, defaultConfig]

/-- C7 (amended): with the default configuration, the derived severity is
the first configured range containing the score; a score contained in no
range maps to LOW when below 25 and to CRITICAL otherwise — which covers
not only scores above all ranges but also the gap scores strictly between
49 and 50, 69 and 70, and 84 and 85. -/
theorem determine_severity_characterization (rs : ℚ) :
    determine_severity defaultConfig rs =
      if 25 ≤ rs ∧ rs ≤ 49 then .LOW
      else if 50 ≤ rs ∧ rs ≤ 69 then .MEDIUM
      else if 70 ≤ rs ∧ rs ≤ 84 then .HIGH
      else if 85 ≤ rs ∧ rs ≤ 100 then .CRITICAL
      else if rs < 25 then .LOW
      else .CRITICAL := by
  simp only [determine_severity, severityFromRanges, defaultConfig]
  split_ifs <;> rfl

/-- A successful alert creation records the zone's last-alert time. -/
theorem create_success_sets_last_alert {cfg : Config} {s : AlertState} {now : ℚ}
    {fid z cid : String} {c : TamperingClassification} {rs : ℚ} {rsn : List String}
    (h : (create_alert_from_classification cfg s now fid z cid c rs rsn).1.isSome = true) :
    (create_alert_from_classification cfg s now fid z cid c rs rsn).2.zone_last_alert z
      = some now := by
  unfold create_alert_from_classification at h ⊢
  dsimp only at h ⊢
  split_ifs at h ⊢ <;> simp_all

/-- C8: a second non-SAFE alert-creation call for the same zone, strictly
less than the configured cooldown window after a first call that created an
Alert, returns none and leaves the state unchanged — exactly one Alert is
produced for the pair. -/
theorem cooldown_suppresses_second_alert (cfg : Config) (s0 : AlertState)
    (t1 t2 : ℚ) (fid1 fid2 zone_id cid1 cid2 : String)
    (c1 c2 : TamperingClassification) (rs1 rs2 : ℚ) (rsn1 rsn2 : List String)
    (h1 : (create_alert_from_classification cfg s0 t1 fid1 zone_id cid1
        c1 rs1 rsn1).1.isSome = true)
    (h2 : c2 ≠ TamperingClassification.SAFE)
    (ht : t2 - t1 < cfg.ALERT_COOLDOWN_SECONDS) :
    create_alert_from_classification cfg
        (create_alert_from_classification cfg s0 t1 fid1 zone_id cid1 c1 rs1 rsn1).2
        t2 fid2 zone_id cid2 c2 rs2 rsn2
      = (none,
         (create_alert_from_classification cfg s0 t1 fid1 zone_id cid1 c1 rs1 rsn1).2) := by
  have hlast := create_success_sets_last_alert h1
  have hcd : check_cooldown cfg
      (create_alert_from_classification cfg s0 t1 fid1 zone_id cid1 c1 rs1 rsn1).2
      t2 zone_id = false := by
    unfold check_cooldown
    rw [hlast]
    simp only [decide_eq_false_iff_not, not_le]
    linarith
  set s1 := (create_alert_from_classification cfg s0 t1 fid1 zone_id cid1
    c1 rs1 rsn1).2 with hs1
  unfold create_alert_from_classification
  rw [if_neg h2, if_pos (by simp [hcd])]

/-- Witness for C8: zone Z1, first SUSPICIOUS alert at t=0, second attempt
at t=100 < 300 (default cooldown). -/
theorem cooldown_suppresses_second_alert_witness :
    create_alert_from_classification defaultConfig
        (create_alert_from_classification defaultConfig emptyAlertState 0 "a1" "Z1"
          "c1" TamperingClassification.SUSPICIOUS 40 []).2
        100 "a2" "Z1" "c2" TamperingClassification.SUSPICIOUS 40 []
      = (none,
         (create_alert_from_classification defaultConfig emptyAlertState 0 "a1" "Z1"
           "c1" TamperingClassification.SUSPICIOUS 40 []).2) :=
  cooldown_suppresses_second_alert defaultConfig emptyAlertState 0 100 "a1" "a2"
    "Z1" "c1" "c2" .SUSPICIOUS .SUSPICIOUS 40 40 [] []
    (by norm_num [create_alert_from_classification, check_cooldown, check_flooding,
      determine_severity, severityFromRanges, emptyAlertState, defaultConfig,
      show (TamperingClassification.SUSPICIOUS = TamperingClassification.SAFE)
        = False by simp])
    (by simp)
    (by norm_num [defaultConfig])

/-- C9 counterexample: `resolve_alert` is insensitive to the request's
`resolved_by` and `was_actual_tampering` fields — two resolve calls
differing only in who resolved and in the ground-truth flag produce
identical alerts and identical states, so neither is recorded (the `Alert`
model has no field for them). -/
theorem resolve_discards_resolver_and_ground_truth :
    resolve_alert sampleState 50
        ⟨"a1", "operator_alice", "inspected and repaired", true⟩
      = resolve_alert sampleState 50
        ⟨"a1", "operator_bob", "inspected and repaired", false⟩ ∧
      ("operator_alice" : String) ≠ "operator_bob" ∧
      (10 : ℕ) ≤ ("inspected and repaired" : String).length := by
  refine ⟨rfl, by simp, by decide⟩

/-- C9 (amended): an unknown alert id yields a typed not-found miss
(`none`, state unchanged); otherwise the alert's status becomes RESOLVED
and the resolution notes (≥ 10 characters, enforced by request validation)
and resolution timestamp are recorded — the resolver identity and the
`was_actual_tampering` flag are accepted in the request but not persisted. -/
theorem resolve_alert_spec (s : AlertState) (now : ℚ)
    (req : AlertResolveRequest) (_hnotes : 10 ≤ req.resolution_notes.length) :
    (lookupAlert s.alerts req.alert_id = none →
      resolve_alert s now req = (none, s)) ∧
    (∀ a, lookupAlert s.alerts req.alert_id = some a →
      ∃ a', (resolve_alert s now req).1 = some a' ∧
        a'.status = AlertStatus.RESOLVED ∧
        a'.resolved_at = some now ∧
        a'.resolution_notes = some req.resolution_notes ∧
        a'.updated_at = now) := by
  constructor
  · intro h
    unfold resolve_alert
    rw [h]
  · intro a h
    unfold resolve_alert
    rw [h]
    exact ⟨_, rfl, rfl, rfl, rfl, rfl⟩

/-- Witness for C9's amended claim at `sampleState` (known id "a1",
unknown id handled by the same theorem at a different request). -/
theorem resolve_alert_spec_witness :
    (lookupAlert sampleState.alerts
        (AlertResolveRequest.alert_id ⟨"a1", "op", "inspected and repaired", true⟩) = none →
      resolve_alert sampleState 7 ⟨"a1", "op", "inspected and repaired", true⟩
        = (none, sampleState)) ∧
    (∀ a, lookupAlert sampleState.alerts
        (AlertResolveRequest.alert_id ⟨"a1", "op", "inspected and repaired", true⟩) = some a →
      ∃ a', (resolve_alert sampleState 7 ⟨"a1", "op", "inspected and repaired", true⟩).1
          = some a' ∧
        a'.status = AlertStatus.RESOLVED ∧
        a'.resolved_at = some 7 ∧
        a'.resolution_notes = some (AlertResolveRequest.resolution_notes
          ⟨"a1", "op", "inspected and repaired", true⟩) ∧
        a'.updated_at = 7) :=
  resolve_alert_spec sampleState 7 ⟨"a1", "op", "inspected and repaired", true⟩
    (by decide)

/-- C10: once an alert has been escalated (status ESCALATED), every later
`check_escalations` pass leaves it unchanged — the status filter admits
only ACTIVE alerts — so an alert that starts ACTIVE at level INITIAL and is
never acknowledged or returned to ACTIVE can never exceed level SUPERVISOR
under any sequence of passes. -/
theorem escalated_alert_never_reescalates (cfg : Config) (nows : List ℚ)
    (a : Alert) (h1 : a.status = AlertStatus.ACTIVE)
    (h2 : a.escalation_level = EscalationLevel.INITIAL) :
    (∀ t b, b.status = AlertStatus.ESCALATED → escalateOne cfg t b = b) ∧
    (nows.foldl (fun b t => escalateOne cfg t b) a).escalation_level.val
      ≤ EscalationLevel.SUPERVISOR.val := by
  have hfix : ∀ t b, b.status = AlertStatus.ESCALATED → escalateOne cfg t b = b := by
    intro t b hb
    unfold escalateOne
    rw [if_pos (by simp [hb])]
  refine ⟨hfix, ?_⟩
  have key : ∀ (l : List ℚ) (b : Alert),
      (b.status = AlertStatus.ACTIVE ∧ b.escalation_level = EscalationLevel.INITIAL) ∨
        (b.status = AlertStatus.ESCALATED ∧
          b.escalation_level = EscalationLevel.SUPERVISOR) →
      (l.foldl (fun b t => escalateOne cfg t b) b).escalation_level.val ≤ 2 := by
    intro l
    induction l with
    | nil =>
      intro b hb
      rcases hb with ⟨_, h⟩ | ⟨_, h⟩ <;> simp [h, EscalationLevel.val]
    | cons t ts ih =>
      intro b hb
      simp only [List.foldl_cons]
      apply ih
      rcases hb with ⟨hst, hlv⟩ | ⟨hst, hlv⟩
      · unfold escalateOne
        rw [if_neg (by simp [hst])]
        by_cases hack : b.acknowledged
        · rw [if_pos hack]
          exact .inl ⟨hst, hlv⟩
        · rw [if_neg hack]
          dsimp only
          split_ifs with hcond
          · exact .inr ⟨rfl, by simp [hlv, EscalationLevel.next]⟩
          · exact .inl ⟨hst, hlv⟩
      · rw [hfix t b hst]
        exact .inr ⟨hst, hlv⟩
  exact key nows a (.inl ⟨h1, h2⟩)

/-- Witness for C10 at `sampleAlert` with one very late check pass. -/
theorem escalated_alert_never_reescalates_witness :
    (∀ t b, b.status = AlertStatus.ESCALATED →
      escalateOne defaultConfig t b = b) ∧
    ([(10000 : ℚ)].foldl (fun b t => escalateOne defaultConfig t b)
        sampleAlert).escalation_level.val
      ≤ EscalationLevel.SUPERVISOR.val :=
  escalated_alert_never_reescalates defaultConfig [10000] sampleAlert rfl rfl

/-- C6 counterexample: `run_single` records `str(e)` verbatim, and an
exception's text may be empty (`str(Exception())` is `""`): after a cycle
failing with an empty-text exception the stored error message is the empty
string — the recorded message is not non-empty for every exception. -/
theorem run_single_error_message_can_be_empty :
    (run_single_outcome initController 0 1 (Except.error "")).2.error_message
        = some "" ∧
      ("" : String).length = 0 :=
  ⟨rfl, rfl⟩

/-- C6 (amended): every exception raised during the cycle is caught;
`run_single` returns a structured failure payload (success = false, the
exception's text, state ERROR), the controller state becomes ERROR with the
error message set to the exception's text (non-empty exactly when the
exception's text is), and `reset()` from that state returns STOPPED with
the error cleared. -/
theorem run_single_error_path (s : ControllerState) (tstart tend : ℚ)
    (e : String) :
    (run_single_outcome s tstart tend (Except.error e)).1.success = false ∧
    (run_single_outcome s tstart tend (Except.error e)).1.error = some e ∧
    (run_single_outcome s tstart tend (Except.error e)).1.state
        = SimulationState.ERROR ∧
    (run_single_outcome s tstart tend (Except.error e)).2.state
        = SimulationState.ERROR ∧
    (run_single_outcome s tstart tend (Except.error e)).2.error_message
        = some e ∧
    (reset (run_single_outcome s tstart tend (Except.error e)).2).state
        = SimulationState.STOPPED ∧
    (reset (run_single_outcome s tstart tend (Except.error e)).2).error_message
        = none := by
  refine ⟨rfl, rfl, rfl, rfl, rfl, ?_, ?_⟩ <;>
    simp [run_single_outcome, reset]

/-- The interleaved execution in which both callers are inside the
classification cycle at once: A acquires and releases the first critical
section (state RUNNING), then B does the same — B is not blocked, because
the lock is free while A's cycle runs. -/
theorem overlap_reachable :
    RunReachable ⟨.cycle, .cycle, false, .RUNNING⟩ := by
  have s1 : RunStep initRunConfig ⟨.crit1, .entry, true, .STOPPED⟩ :=
    RunStep.acquire1A initRunConfig rfl rfl
  have s2 : RunStep ⟨.crit1, .entry, true, .STOPPED⟩
      ⟨.cycle, .entry, false, .RUNNING⟩ :=
    RunStep.release1A _ rfl
  have s3 : RunStep ⟨.cycle, .entry, false, .RUNNING⟩
      ⟨.cycle, .crit1, true, .RUNNING⟩ :=
    RunStep.acquire1B _ rfl rfl
  have s4 : RunStep ⟨.cycle, .crit1, true, .RUNNING⟩
      ⟨.cycle, .cycle, false, .RUNNING⟩ :=
    RunStep.release1B _ rfl
  exact .head s1 (.head s2 (.head s3 (.single s4)))

/-- C5 counterexample: the claim that `run_single` cycles are serialized
end-to-end is false — the interleaving reaching both tasks in the cycle
phase refutes it. -/
theorem run_single_not_serialized : ¬ runSingleSerialized :=
  fun h => h _ overlap_reachable ⟨rfl, rfl⟩

/-- Each step of the interleaving model preserves `RunInv`. -/
theorem runInv_preserved {c c' : RunConfig} (h : RunStep c c')
    (hc : RunInv c) : RunInv c' := by
  obtain ⟨hl, hm⟩ := hc
  cases h with
  | acquire1A h1 h2 =>
    obtain ⟨hA, hB⟩ := hl h2
    exact ⟨fun hf => absurd hf (by simp), fun ⟨_, hb⟩ => hB hb⟩
  | release1A h1 =>
    refine ⟨fun _ => ⟨by simp [inCrit], ?_⟩, fun ⟨ha, _⟩ => by simp [inCrit] at ha⟩
    intro hb
    exact hm ⟨by simp [inCrit, h1], hb⟩
  | acquire2A h1 h2 =>
    obtain ⟨hA, hB⟩ := hl h2
    exact ⟨fun hf => absurd hf (by simp), fun ⟨_, hb⟩ => hB hb⟩
  | release2A h1 =>
    refine ⟨fun _ => ⟨by simp [inCrit], ?_⟩, fun ⟨ha, _⟩ => by simp [inCrit] at ha⟩
    intro hb
    exact hm ⟨by simp [inCrit, h1], hb⟩
  | acquire1B h1 h2 =>
    obtain ⟨hA, hB⟩ := hl h2
    exact ⟨fun hf => absurd hf (by simp), fun ⟨ha, _⟩ => hA ha⟩
  | release1B h1 =>
    refine ⟨fun _ => ⟨?_, by simp [inCrit]⟩, fun ⟨_, hb⟩ => by simp [inCrit] at hb⟩
    intro ha
    exact hm ⟨ha, by simp [inCrit, h1]⟩
  | acquire2B h1 h2 =>
    obtain ⟨hA, hB⟩ := hl h2
    exact ⟨fun hf => absurd hf (by simp), fun ⟨ha, _⟩ => hA ha⟩
  | release2B h1 =>
    refine ⟨fun _ => ⟨?_, by simp [inCrit]⟩, fun ⟨_, hb⟩ => by simp [inCrit] at hb⟩
    intro ha
    exact hm ⟨ha, by simp [inCrit, h1]⟩

/-- Every reachable configuration satisfies `RunInv`. -/
theorem runReachable_inv {c : RunConfig} (h : RunReachable c) : RunInv c := by
  induction h with
  | refl =>
    exact ⟨fun _ => ⟨by simp [inCrit, initRunConfig], by simp [inCrit, initRunConfig]⟩,
      fun ⟨ha, _⟩ => by simp [inCrit, initRunConfig] at ha⟩
  | tail hsteps hstep ih => exact runInv_preserved hstep ih

/-- C5 (amended): the lock only serializes the two state-transition
critical sections of `run_single` — never two tasks inside them at once —
but the classification cycle runs outside the lock, so a reachable
interleaving has both callers executing their cycles concurrently (with the
controller RUNNING): a caller invoking `run_single` while another cycle is
in flight is not blocked until that cycle completes. -/
theorem run_single_lock_scope :
    (∃ c : RunConfig, RunReachable c ∧ c.pcA = TaskPc.cycle ∧
      c.pcB = TaskPc.cycle ∧ c.simState = SimulationState.RUNNING) ∧
    (∀ c : RunConfig, RunReachable c → ¬ (inCrit c.pcA ∧ inCrit c.pcB)) :=
  ⟨⟨_, overlap_reachable, rfl, rfl, rfl⟩,
   fun _ hc => (runReachable_inv hc).2⟩

end Rakshak
